import Mathlib

/-!
Shallow embedding of `local_runner.py` from the AWS_Lakehouse_Project
repository: the expectation-based validation engine, the staging
normalizer, the (store_id, dt) fact aggregator and the artifact writer,
together with theorems settling the specification claims about them.

Conventions of the embedding:
* pandas dataframes are `DataFrame`: an ordered list of column names plus
  rows of dynamically typed cells (`Value`);
* Python floats are modelled as rationals (`ℚ`); calendar dates as their
  ordinal (`Int`);
* raised exceptions are modelled with `Except PipelineError`; the source
  defines a single exception class `ExpectationFailure`, and Python-level
  `KeyError` / coercion `ValueError` get their own constructors;
* Python's regex engine is modelled by a derivative-based matcher over a
  small regex AST; `re.match` / pandas `Series.str.match` is
  `prefixMatch` (anchored at the start only), full-string matching is
  `fullmatch`.
-/

namespace LocalRunner

/-- A dynamically typed cell of a dataframe. `null` stands for NaN/None. -/
inductive Value
  | null
  | int (n : Int)
  | float (q : ℚ)
  | str (s : String)
  | bool (b : Bool)
  | date (d : Int)
  deriving DecidableEq, Repr

/-- Python truth of `pd.isnull` on a scalar. -/
def Value.isNull : Value → Bool
  | .null => true
  | _ => false

/-- `str(value)` / `.astype(str)` coercion of one cell (pandas renders NaN
as the string "nan"). -/
def Value.asString : Value → String
  | .null => "nan"
  | .int n => toString n
  | .float q => toString q
  | .str s => s
  | .bool b => if b then "True" else "False"
  | .date d => toString d

/-- Numeric content of a cell; pandas treats booleans as 0/1 numerics. -/
def Value.toRat : Value → ℚ
  | .int n => (n : ℚ)
  | .float q => q
  | .bool b => if b then 1 else 0
  | _ => 0

/-- Whether a cell takes part in numeric comparisons as a number. -/
def Value.isNumeric : Value → Bool
  | .int _ => true
  | .float _ => true
  | .bool _ => true
  | _ => false

/-- Elementwise `value < m` as pandas evaluates it in `df[col] < m`:
numerics compare through their numeric content, NaN compares `False`.
(Comparing a genuinely non-numeric column with a number raises in pandas;
the claims below therefore restrict to numeric columns.) -/
def Value.vlt (v : Value) (m : ℚ) : Bool :=
  match v with
  | .int n => decide ((n : ℚ) < m)
  | .float q => decide (q < m)
  | .bool b => decide (((if b then 1 else 0) : ℚ) < m)
  | _ => false

/-- A pandas dataframe: ordered column names and rows of cells. -/
structure DataFrame where
  cols : List String
  rows : List (List Value)
  deriving DecidableEq, Repr

/-- `df[c]` as an optional column: `none` models Python's `KeyError` when
the column is absent. A short row yields NaN cells, as pandas would. -/
def DataFrame.getCol? (df : DataFrame) (c : String) : Option (List Value) :=
  match df.cols.findIdx? (fun x => x == c) with
  | none => none
  | some i => some (df.rows.map (fun r => r.getD i Value.null))

/-- The error taxonomy of a run. The source code defines the single
exception class `ExpectationFailure`; `keyError` and `coercionError`
model the Python-level `KeyError` / `ValueError` that column access and
`astype`/`to_datetime` coercion raise. `unsupportedRuleKind` exists only
so that the spec's claimed error type is expressible: the source never
produces it. -/
inductive PipelineError
  | expectationFailure (detail : String)
  | keyError (column : String)
  | coercionError (column : String)
  | unsupportedRuleKind (kind : String)
  deriving DecidableEq, Repr

/-- A regex AST, the compiled form of a pattern string. -/
inductive Regex
  | emptyset
  | epsilon
  | chr (c : Char)
  | anyChar
  | nonSpace
  | alt (r s : Regex)
  | cat (r s : Regex)
  | star (r : Regex)
  deriving DecidableEq, Repr

/-- Does the regex accept the empty string? -/
def Regex.nullable : Regex → Bool
  | .emptyset => false
  | .epsilon => true
  | .chr _ => false
  | .anyChar => false
  | .nonSpace => false
  | .alt r s => r.nullable || s.nullable
  | .cat r s => r.nullable && s.nullable
  | .star _ => true

/-- Brzozowski derivative of the regex with respect to one character. -/
def Regex.deriv : Regex → Char → Regex
  | .emptyset, _ => .emptyset
  | .epsilon, _ => .emptyset
  | .chr c, a => if a = c then .epsilon else .emptyset
  | .anyChar, _ => .epsilon
  | .nonSpace, a => if a = ' ' || a = '\t' || a = '\n' || a = '\r' then .emptyset else .epsilon
  | .alt r s, a => .alt (r.deriv a) (s.deriv a)
  | .cat r s, a =>
      if r.nullable then .alt (.cat (r.deriv a) s) (s.deriv a)
      else .cat (r.deriv a) s
  | .star r, a => .cat (r.deriv a) (.star r)

/-- `r+`, one or more repetitions. -/
def Regex.plus (r : Regex) : Regex := .cat r (.star r)

/-- Acceptance of the whole string (Python `re.fullmatch`). -/
def fullmatch : Regex → List Char → Bool
  | r, [] => r.nullable
  | r, a :: s => fullmatch (r.deriv a) s

/-- Acceptance of some (possibly empty) prefix of the string, anchored at
the start: the semantics of Python `re.match` and of pandas
`Series.str.match`, which the source calls. -/
def prefixMatch : Regex → List Char → Bool
  | r, [] => r.nullable
  | r, a :: s => r.nullable || prefixMatch (r.deriv a) s

/-- One GE-like expectation, the parsed form of one entry of a suite's
`expectations` list: the `expectation_type` string dispatches into one of
the four recognized kinds, anything else is `unknown` carrying the type
string. `between` keeps both bounds of the `kwargs`
(`expect_column_values_to_be_between` may carry a `max_value`);
`matchesRegex` keeps the pattern string of the `kwargs` next to its
compiled form. -/
inductive Rule
  | columnsMatchOrdered (expected : List String)
  | notNull (column : String)
  | between (column : String) (minValue maxValue : Option ℚ)
  | matchesRegex (column : String) (pattern : String) (rgx : Regex)
  | unknown (etype : String)
  deriving DecidableEq, Repr

/-- Rendering of an optional bound inside a pass message, after Python's
f-string (`None` for an absent bound). -/
def optBoundStr : Option ℚ → String
  | none => "None"
  | some q => toString q

/-- Evaluation of a single expectation against a dataframe: the body of
one iteration of the `for exp in cfg.get("expectations", [])` loop of
`_validate_expectations`, returning the pass message it appends or the
exception it raises. -/
def validateRule (df : DataFrame) (r : Rule) : Except PipelineError String :=
  match r with
  | .columnsMatchOrdered expected =>
      if df.cols ≠ expected then
        .error (.expectationFailure
          ("Column order mismatch. Expected " ++ toString expected ++
            ", got " ++ toString df.cols))
      else .ok "Column order validated"
  | .notNull column =>
      match df.getCol? column with
      | none => .error (.keyError column)
      | some vs =>
          if vs.any Value.isNull then
            .error (.expectationFailure ("Null values found in " ++ column))
          else .ok ("Column " ++ column ++ " not null validated")
  | .between column minValue _maxValue =>
      match df.getCol? column with
      | none => .error (.keyError column)
      | some vs =>
          match minValue with
          | some m =>
              if vs.any (fun v => v.vlt m) then
                .error (.expectationFailure
                  ("Values in " ++ column ++ " below " ++ toString m))
              else .ok ("Column " ++ column ++ " minimum " ++
                optBoundStr minValue ++ " validated")
          | none =>
              .ok ("Column " ++ column ++ " minimum " ++
                optBoundStr minValue ++ " validated")
  | .matchesRegex column pattern rgx =>
      match df.getCol? column with
      | none => .error (.keyError column)
      | some vs =>
          if vs.all (fun v => prefixMatch rgx v.asString.toList) then
            .ok ("Column " ++ column ++ " regex " ++ pattern ++ " validated")
          else .error (.expectationFailure
            ("Regex validation failed for " ++ column))
  | .unknown etype =>
      .error (.expectationFailure ("Unsupported expectation type: " ++ etype))

/-- `_validate_expectations`: sequential evaluation of the suite in order,
accumulating pass messages, short-circuiting on the first raise. -/
def validate (df : DataFrame) (suite : List Rule) :
    Except PipelineError (List String) :=
  match suite with
  | [] => .ok []
  | r :: rs =>
      match validateRule df r with
      | .error e => .error e
      | .ok m =>
          match validate df rs with
          | .error e => .error e
          | .ok ms => .ok (m :: ms)

/-! ### Staging normalizer (`stage_frames`) -/

/-- A row of `stg_erp_orders` after projection and coercion:
`order_id` cast to integer, `order_value` cast to float, `dt` normalized
to a calendar date; the remaining columns keep their raw cells. -/
structure OrderRow where
  order_id : Int
  customer_id : Value
  store_id : String
  dt : Int
  order_value : ℚ
  status : Value
  deriving DecidableEq, Repr

/-- A row of `stg_crm_leads` (only `dt` is coerced). -/
structure LeadRow where
  lead_id : Value
  name : Value
  email : Value
  source : Value
  status : Value
  store_id : String
  dt : Int
  deriving DecidableEq, Repr

/-- A row of `stg_products` (only `dt` is coerced). -/
structure ProductRow where
  product_id : Value
  name : Value
  category : Value
  price : Value
  active : Value
  store_id : String
  dt : Int
  deriving DecidableEq, Repr

/-- A row of `stg_web_events` (only `dt` is coerced). -/
structure WebRow where
  event_id : Value
  visitor_id : Value
  store_id : String
  dt : Int
  page : Value
  event_type : Value
  metadata : Value
  deriving DecidableEq, Repr

/-- The staging dictionary produced by `stage_frames`, one table per
domain. -/
structure Staging where
  stg_erp_orders : List OrderRow
  stg_crm_leads : List LeadRow
  stg_products : List ProductRow
  stg_web_events : List WebRow
  deriving DecidableEq, Repr

/-- Raw cell of a row under a named column; `KeyError` when absent. -/
def getCell (df : DataFrame) (row : List Value) (c : String) :
    Except PipelineError Value :=
  match df.cols.findIdx? (fun x => x == c) with
  | none => .error (.keyError c)
  | some i => .ok (row.getD i Value.null)

/-- `.astype(int)` on one cell (a non-integer float truncates toward
zero, as numpy does; a non-numeric cell raises). -/
def reqInt (column : String) (v : Value) : Except PipelineError Int :=
  match v with
  | .int n => .ok n
  | .float q => .ok (q.num / (q.den : Int))
  | .bool b => .ok (if b then 1 else 0)
  | .str s =>
      match s.toInt? with
      | some n => .ok n
      | none => .error (.coercionError column)
  | _ => .error (.coercionError column)

/-- `.astype(float)` on one cell. -/
def reqFloat (column : String) (v : Value) : Except PipelineError ℚ :=
  match v with
  | .int n => .ok (n : ℚ)
  | .float q => .ok q
  | .bool b => .ok (if b then 1 else 0)
  | _ => .error (.coercionError column)

/-- `pd.to_datetime(...).dt.date` on one cell: the loader is modelled as
delivering already-parsed `date` cells, anything else fails coercion. -/
def reqDate (column : String) (v : Value) : Except PipelineError Int :=
  match v with
  | .date d => .ok d
  | _ => .error (.coercionError column)

/-- Store identifiers: every raw source supplies string store ids, so the
grouping key is modelled as a string. -/
def reqStr (column : String) (v : Value) : Except PipelineError String :=
  match v with
  | .str s => .ok s
  | _ => .error (.coercionError column)

/-- Projection of one raw erp row into `stg_erp_orders`. -/
def parseOrderRow (df : DataFrame) (row : List Value) :
    Except PipelineError OrderRow := do
  let oid ← reqInt "order_id" (← getCell df row "order_id")
  let cust ← getCell df row "customer_id"
  let store ← reqStr "store_id" (← getCell df row "store_id")
  let d ← reqDate "dt" (← getCell df row "dt")
  let ov ← reqFloat "order_value" (← getCell df row "order_value")
  let st ← getCell df row "status"
  pure ⟨oid, cust, store, d, ov, st⟩

/-- Projection of one raw crm row into `stg_crm_leads`. -/
def parseLeadRow (df : DataFrame) (row : List Value) :
    Except PipelineError LeadRow := do
  let lid ← getCell df row "lead_id"
  let nm ← getCell df row "name"
  let em ← getCell df row "email"
  let src ← getCell df row "source"
  let st ← getCell df row "status"
  let store ← reqStr "store_id" (← getCell df row "store_id")
  let d ← reqDate "dt" (← getCell df row "dt")
  pure ⟨lid, nm, em, src, st, store, d⟩

/-- Projection of one raw product row into `stg_products`. -/
def parseProductRow (df : DataFrame) (row : List Value) :
    Except PipelineError ProductRow := do
  let pid ← getCell df row "product_id"
  let nm ← getCell df row "name"
  let cat ← getCell df row "category"
  let pr ← getCell df row "price"
  let act ← getCell df row "active"
  let store ← reqStr "store_id" (← getCell df row "store_id")
  let d ← reqDate "dt" (← getCell df row "dt")
  pure ⟨pid, nm, cat, pr, act, store, d⟩

/-- Projection of one raw web row into `stg_web_events`. -/
def parseWebRow (df : DataFrame) (row : List Value) :
    Except PipelineError WebRow := do
  let eid ← getCell df row "event_id"
  let vis ← getCell df row "visitor_id"
  let store ← reqStr "store_id" (← getCell df row "store_id")
  let d ← reqDate "dt" (← getCell df row "dt")
  let pg ← getCell df row "page"
  let et ← getCell df row "event_type"
  let md ← getCell df row "metadata"
  pure ⟨eid, vis, store, d, pg, et, md⟩

/-- The validated raw frames, one per domain, keyed as in the `DOMAINS`
configuration dictionary. -/
structure RawFrames where
  erp : DataFrame
  crm : DataFrame
  web : DataFrame
  product : DataFrame
  deriving DecidableEq, Repr

/-- `stage_frames`: builds the four staging tables (in the source's
insertion order orders, crm, products, web), propagating the first
coercion failure. -/
def stage_frames (raw : RawFrames) : Except PipelineError Staging := do
  let orders ← raw.erp.rows.mapM (parseOrderRow raw.erp)
  let crm ← raw.crm.rows.mapM (parseLeadRow raw.crm)
  let products ← raw.product.rows.mapM (parseProductRow raw.product)
  let web ← raw.web.rows.mapM (parseWebRow raw.web)
  pure ⟨orders, crm, products, web⟩

/-! ### Fact aggregator (`build_fact`) -/

/-- The grouping key of the fact table. -/
abbrev SDKey := String × Int

/-- Ascending order on (store_id, dt), string part lexicographic, the
order `sort_values(["store_id", "dt"])` sorts by. -/
def keyLE (a b : SDKey) : Prop :=
  a.1 < b.1 ∨ (a.1 = b.1 ∧ a.2 ≤ b.2)

instance : DecidableRel keyLE := fun a b =>
  inferInstanceAs (Decidable (_ ∨ _))

instance : IsTotal SDKey keyLE := by
  constructor
  intro a b
  rcases lt_trichotomy a.1 b.1 with h | h | h
  · exact Or.inl (Or.inl h)
  · rcases le_total a.2 b.2 with h2 | h2
    · exact Or.inl (Or.inr ⟨h, h2⟩)
    · exact Or.inr (Or.inr ⟨h.symm, h2⟩)
  · exact Or.inr (Or.inl h)

instance : IsTrans SDKey keyLE := by
  constructor
  intro a b c hab hbc
  rcases hab with h1 | ⟨e1, l1⟩
  · rcases hbc with h2 | ⟨e2, _⟩
    · exact Or.inl (h1.trans h2)
    · exact Or.inl (e2 ▸ h1)
  · rcases hbc with h2 | ⟨e2, l2⟩
    · exact Or.inl (e1 ▸ h2)
    · exact Or.inr ⟨e1.trans e2, l1.trans l2⟩

/-- Distinct keys of a list, in ascending order: the index a pandas
`groupby(["store_id", "dt"])` produces (groupby sorts its keys). -/
def groupKeys (ks : List SDKey) : List SDKey :=
  (ks.dedup).insertionSort keyLE

/-- Key of a staged order row. -/
def OrderRow.key (r : OrderRow) : SDKey := (r.store_id, r.dt)

/-- Key of a staged lead row. -/
def LeadRow.key (r : LeadRow) : SDKey := (r.store_id, r.dt)

/-- Key of a staged product row. -/
def ProductRow.key (r : ProductRow) : SDKey := (r.store_id, r.dt)

/-- Key of a staged web row. -/
def WebRow.key (r : WebRow) : SDKey := (r.store_id, r.dt)

/-- First-match association lookup (the indexed access a pandas join
performs on a grouped frame). -/
def alookup {α : Type} : List (SDKey × α) → SDKey → Option α
  | [], _ => none
  | (k, a) :: kas, k' => if k' = k then some a else alookup kas k'

/-- `revenue = ("order_value", "sum")` for one group. -/
def revenueAt (rows : List OrderRow) (k : SDKey) : ℚ :=
  ((rows.filter (fun r => r.key = k)).map OrderRow.order_value).sum

/-- `order_count = ("order_id", "count")` for one group (`order_id` is an
integer column after staging, so the non-null count is the row count). -/
def orderCountAt (rows : List OrderRow) (k : SDKey) : Nat :=
  (rows.filter (fun r => r.key = k)).length

/-- `converted_leads = count of rows with status == "converted"` for one
group. -/
def convertedLeadsAt (rows : List LeadRow) (k : SDKey) : Nat :=
  (rows.filter (fun r => r.key = k ∧ r.status = .str "converted")).length

/-- `sessions = ("event_id", "count")` for one group: pandas `count`
counts the non-null `event_id` cells. -/
def sessionsAt (rows : List WebRow) (k : SDKey) : Nat :=
  (rows.filter (fun r => r.key = k ∧ r.event_id.isNull = false)).length

/-- The grouped orders frame: sorted distinct keys, each carrying
(revenue, order_count). -/
def groupOrders (rows : List OrderRow) : List (SDKey × (ℚ × Nat)) :=
  (groupKeys (rows.map OrderRow.key)).map
    (fun k => (k, (revenueAt rows k, orderCountAt rows k)))

/-- The grouped leads frame: sorted distinct keys with converted_leads. -/
def groupLeads (rows : List LeadRow) : List (SDKey × Nat) :=
  (groupKeys (rows.map LeadRow.key)).map
    (fun k => (k, convertedLeadsAt rows k))

/-- The grouped web frame: sorted distinct keys with sessions. -/
def groupWeb (rows : List WebRow) : List (SDKey × Nat) :=
  (groupKeys (rows.map WebRow.key)).map
    (fun k => (k, sessionsAt rows k))

/-- One row of `fct_daily_store_metrics`, fields in the column order of
the reset-index frame. -/
structure FactRow where
  store_id : String
  dt : Int
  revenue : ℚ
  order_count : Nat
  converted_leads : Nat
  sessions : Nat
  deriving DecidableEq, Repr

/-- Key of a fact row. -/
def FactRow.key (r : FactRow) : SDKey := (r.store_id, r.dt)

/-- The keys of the outer join of the three grouped frames: every key
present in any one of them, sorted ascending (the final
`sort_values(["store_id", "dt"])`). -/
def factKeys (st : Staging) : List SDKey :=
  groupKeys
    ((groupOrders st.stg_erp_orders).map Prod.fst ++
      (groupLeads st.stg_crm_leads).map Prod.fst ++
      (groupWeb st.stg_web_events).map Prod.fst)

/-- The fact row the join produces at one key: each metric is the looked
up grouped value when the key is present in that grouped frame, and the
`fillna(0)` default otherwise. -/
def factRowAt (st : Staging) (k : SDKey) : FactRow :=
  let om := alookup (groupOrders st.stg_erp_orders) k
  let lm := alookup (groupLeads st.stg_crm_leads) k
  let wm := alookup (groupWeb st.stg_web_events) k
  { store_id := k.1
    dt := k.2
    revenue := (om.map Prod.fst).getD 0
    order_count := (om.map Prod.snd).getD 0
    converted_leads := lm.getD 0
    sessions := wm.getD 0 }

/-- `build_fact`: group the three contributing staging tables by
(store_id, dt), outer-join them, zero-fill the missing metrics, and sort
ascending by (store_id, dt). -/
def build_fact (st : Staging) : List FactRow :=
  (factKeys st).map (factRowAt st)

/-! ### Artifact writer (`write_outputs`) and pipeline (`run_pipeline`) -/

/-- Serialization of a staged order row in the column order of
`stg_erp_orders`. -/
def orderRowCells (r : OrderRow) : List Value :=
  [.int r.order_id, r.customer_id, .str r.store_id, .date r.dt,
    .float r.order_value, r.status]

/-- Serialization of a staged lead row in the column order of
`stg_crm_leads`. -/
def leadRowCells (r : LeadRow) : List Value :=
  [r.lead_id, r.name, r.email, r.source, r.status, .str r.store_id,
    .date r.dt]

/-- Serialization of a staged product row in the column order of
`stg_products`. -/
def productRowCells (r : ProductRow) : List Value :=
  [r.product_id, r.name, r.category, r.price, r.active, .str r.store_id,
    .date r.dt]

/-- Serialization of a staged web row in the column order of
`stg_web_events`. -/
def webRowCells (r : WebRow) : List Value :=
  [r.event_id, r.visitor_id, .str r.store_id, .date r.dt, r.page,
    r.event_type, r.metadata]

/-- Serialization of a fact row in the column order of the reset-index
fact frame. -/
def factRowCells (r : FactRow) : List Value :=
  [.str r.store_id, .date r.dt, .float r.revenue,
    .int (r.order_count : Int), .int (r.converted_leads : Int),
    .int (r.sessions : Int)]

/-- The `stg_erp_orders` frame as written. -/
def erpFrame (rows : List OrderRow) : DataFrame :=
  ⟨["order_id", "customer_id", "store_id", "dt", "order_value", "status"],
    rows.map orderRowCells⟩

/-- The `stg_crm_leads` frame as written. -/
def crmFrame (rows : List LeadRow) : DataFrame :=
  ⟨["lead_id", "name", "email", "source", "status", "store_id", "dt"],
    rows.map leadRowCells⟩

/-- The `stg_products` frame as written. -/
def productFrame (rows : List ProductRow) : DataFrame :=
  ⟨["product_id", "name", "category", "price", "active", "store_id", "dt"],
    rows.map productRowCells⟩

/-- The `stg_web_events` frame as written. -/
def webFrame (rows : List WebRow) : DataFrame :=
  ⟨["event_id", "visitor_id", "store_id", "dt", "page", "event_type",
      "metadata"],
    rows.map webRowCells⟩

/-- The fact frame after `reset_index()`: the aggregate output as a
dataframe, also the shape `to_csv` writes. -/
def factFrame (rows : List FactRow) : DataFrame :=
  ⟨["store_id", "dt", "revenue", "order_count", "converted_leads",
      "sessions"],
    rows.map factRowCells⟩

/-- `write_outputs`: the artifact files written under `curated/`, one
tabular file per staging table (in the staging dictionary's insertion
order) plus the fact table. -/
def write_outputs (st : Staging) (fact : List FactRow) :
    List (String × DataFrame) :=
  [("stg_erp_orders.csv", erpFrame st.stg_erp_orders),
    ("stg_crm_leads.csv", crmFrame st.stg_crm_leads),
    ("stg_products.csv", productFrame st.stg_products),
    ("stg_web_events.csv", webFrame st.stg_web_events),
    ("fct_daily_store_metrics.csv", factFrame fact)]

/-- The expectation suites, one per domain, keyed as `DOMAINS`. -/
structure Suites where
  erp : List Rule
  crm : List Rule
  web : List Rule
  product : List Rule
  deriving Repr

/-- The domains in the iteration order of the `DOMAINS` dictionary. -/
inductive Domain
  | erp
  | crm
  | web
  | product
  deriving DecidableEq, Repr

/-- The `for domain, cfg in DOMAINS.items()` iteration order. -/
def domainOrder : List Domain := [.erp, .crm, .web, .product]

/-- The loaded raw frame of one domain (loading itself is file I/O and is
modelled as the given input frames). -/
def rawOf (raw : RawFrames) : Domain → DataFrame
  | .erp => raw.erp
  | .crm => raw.crm
  | .web => raw.web
  | .product => raw.product

/-- The expectation suite of one domain. -/
def suiteOf (suites : Suites) : Domain → List Rule
  | .erp => suites.erp
  | .crm => suites.crm
  | .web => suites.web
  | .product => suites.product

/-- The validation loop of `run_pipeline`: each domain in `DOMAINS` order,
stopping at the first raise. -/
def validateDomains (raw : RawFrames) (suites : Suites) :
    List Domain → Except PipelineError (List (List String))
  | [] => .ok []
  | d :: ds =>
      match validate (rawOf raw d) (suiteOf suites d) with
      | .error e => .error e
      | .ok ms =>
          match validateDomains raw suites ds with
          | .error e => .error e
          | .ok rest => .ok (ms :: rest)

/-- `run_pipeline`: validate every domain in order, stage the validated
frames, build the fact table and write the artifacts; any raise aborts
the run before anything later happens, and the result value carries the
written artifacts. -/
def run_pipeline (raw : RawFrames) (suites : Suites) :
    Except PipelineError (List (String × DataFrame)) := do
  let _msgs ← validateDomains raw suites domainOrder
  let st ← stage_frames raw
  let fact := build_fact st
  pure (write_outputs st fact)

/-! ### Derived notions used by the claim statements -/

/-- The pass message a rule yields when it holds (and the empty string on
a rule that raises, a case the theorems exclude). -/
def passMessage (df : DataFrame) (r : Rule) : String :=
  match validateRule df r with
  | .ok m => m
  | .error _ => ""

/-- `true` exactly when the computation returned instead of raising. -/
def isPass {α : Type} : Except PipelineError α → Bool
  | .ok _ => true
  | .error _ => false

/-- Discriminates results that raise the spec's claimed
`UnsupportedRuleKind` error. -/
def isUnsupportedRuleKindError {α : Type} : Except PipelineError α → Bool
  | .error (.unsupportedRuleKind _) => true
  | _ => false

/-- Some staged order row carries the key. -/
def hasOrderKey (st : Staging) (k : SDKey) : Prop :=
  ∃ r ∈ st.stg_erp_orders, OrderRow.key r = k

/-- Some staged lead row carries the key. -/
def hasLeadKey (st : Staging) (k : SDKey) : Prop :=
  ∃ r ∈ st.stg_crm_leads, LeadRow.key r = k

/-- Some staged web event carries the key. -/
def hasWebKey (st : Staging) (k : SDKey) : Prop :=
  ∃ r ∈ st.stg_web_events, WebRow.key r = k

instance (st : Staging) (k : SDKey) : Decidable (hasOrderKey st k) := by
  unfold hasOrderKey; infer_instance

instance (st : Staging) (k : SDKey) : Decidable (hasLeadKey st k) := by
  unfold hasLeadKey; infer_instance

instance (st : Staging) (k : SDKey) : Decidable (hasWebKey st k) := by
  unfold hasWebKey; infer_instance

/-! ### Concrete inputs used by witnesses and counterexamples -/

/-- A one-row numeric dataframe. -/
def wDf : DataFrame := ⟨["a"], [[.int 5]]⟩

/-- The spec's regex-scenario dataframe: one record with a malformed
email. -/
def emailDf : DataFrame := ⟨["email"], [[.str "not-an-email"]]⟩

/-- Compiled form of the pattern `^\S+@\S+$` (the leading anchor is
redundant under `re.match`; the trailing anchor makes the prefix match a
full match, which `\S+@\S+` against a value without `@` fails either
way). -/
def emailRgx : Regex :=
  .cat (Regex.plus .nonSpace) (.cat (.chr '@') (Regex.plus .nonSpace))

/-- A dataframe whose only `code` value extends a match of the pattern
`a` by one character. -/
def codeDf : DataFrame := ⟨["code"], [[.str "ab"]]⟩

/-- A small staging input: one order for (S1, 10), one converted lead for
(S2, 10), no products, two web events for (S3, 11). -/
def stW : Staging :=
  ⟨[⟨1, .str "c1", "S1", 10, 10, .str "paid"⟩],
    [⟨.str "l1", .str "n", .str "e", .str "ads", .str "converted", "S2", 10⟩],
    [],
    [⟨.str "e1", .str "v1", "S3", 11, .str "/", .str "view", .null⟩,
      ⟨.str "e2", .str "v1", "S3", 11, .str "/x", .str "view", .null⟩]⟩

/-- `stW` with one product row added for the otherwise unseen key
(S9, 99). -/
def stWP : Staging :=
  { stW with stg_products :=
      [⟨.str "p1", .str "n", .str "c", .float 5, .bool true, "S9", 99⟩] }

/-- Raw frames whose crm frame trips its suite below. -/
def rawW : RawFrames :=
  ⟨⟨["a"], [[.int 5]]⟩, ⟨["b"], [[.null]]⟩, ⟨["c"], []⟩, ⟨["d"], []⟩⟩

/-- Suites for `rawW`: erp passes, crm hits an unsupported rule kind. -/
def suitesW : Suites :=
  ⟨[.notNull "a"], [.unknown "boom"], [], []⟩

/-! ## Theorems -/

/-- A suite whose rules all hold evaluates to the pass messages, one per
rule, in order. -/
theorem validate_of_all_ok (df : DataFrame) (suite : List Rule)
    (h : ∀ r ∈ suite, isPass (validateRule df r) = true) :
    validate df suite = .ok (suite.map (passMessage df)) := by
  induction suite with
  | nil => rfl
  | cons r rs ih =>
      have hr := h r (List.mem_cons_self r rs)
      have hrs : ∀ x ∈ rs, isPass (validateRule df x) = true :=
        fun x hx => h x (List.mem_cons_of_mem r hx)
      cases hvr : validateRule df r with
      | error e => rw [hvr] at hr; simp [isPass] at hr
      | ok m =>
          unfold validate
          rw [hvr, ih hrs]
          simp [passMessage, hvr]

/-- Evaluation raises the error of the first failing rule, whatever
follows it in the suite. -/
theorem validate_first_error (df : DataFrame) (pre : List Rule) (r : Rule)
    (post : List Rule) (e : PipelineError)
    (hpre : ∀ p ∈ pre, isPass (validateRule df p) = true)
    (hr : validateRule df r = .error e) :
    validate df (pre ++ r :: post) = .error e := by
  induction pre with
  | nil => simp [validate, hr]
  | cons p ps ih =>
      have hp := hpre p (List.mem_cons_self p ps)
      have hps : ∀ x ∈ ps, isPass (validateRule df x) = true :=
        fun x hx => hpre x (List.mem_cons_of_mem p hx)
      cases hvp : validateRule df p with
      | error e' => rw [hvp] at hp; simp [isPass] at hp
      | ok m =>
          simp only [List.cons_append, validate, hvp, List.append_eq, ih hps]

/-- C1: `_validate_expectations` evaluates the suite sequentially in
order and short-circuits. When every rule holds it returns exactly one
pass message per rule, in suite order; otherwise it raises at the first
rule that does not hold, returning no messages — the conclusion holds
for every tail `post` after the failing rule, so no later rule can
influence the outcome (it is never evaluated). -/
theorem validate_sequential_short_circuit (df : DataFrame) :
    (∀ suite : List Rule,
        (∀ r ∈ suite, isPass (validateRule df r) = true) →
        validate df suite = .ok (suite.map (passMessage df)))
  ∧ (∀ (pre : List Rule) (r : Rule) (post : List Rule) (e : PipelineError),
        (∀ p ∈ pre, isPass (validateRule df p) = true) →
        validateRule df r = .error e →
        validate df (pre ++ r :: post) = .error e) :=
  ⟨fun suite h => validate_of_all_ok df suite h,
    fun pre r post e hpre hr => validate_first_error df pre r post e hpre hr⟩

/-- Witness for C1 on `wDf`: a two-rule suite that passes yields its two
messages in order; a suite failing at its second rule raises that rule's
error with an unknown-kind rule after it left unevaluated. -/
theorem validate_sequential_short_circuit_witness :
    validate wDf [.notNull "a", .between "a" (some 1) (some 2)] =
      .ok ["Column a not null validated", "Column a minimum 1 validated"]
  ∧ validate wDf
      ([.notNull "a"] ++ (Rule.between "a" (some 99) none) :: [.unknown "zzz"]) =
      .error (.expectationFailure "Values in a below 99") := by
  constructor
  · have h := (validate_sequential_short_circuit wDf).1
      [.notNull "a", .between "a" (some 1) (some 2)] (by decide)
    rw [h]; rfl
  · exact (validate_sequential_short_circuit wDf).2
      [.notNull "a"] (.between "a" (some 99) none) [.unknown "zzz"]
      (.expectationFailure "Values in a below 99") (by decide) (by rfl)

/-- C5 counterexample: on a suite holding the unrecognized kind
`expect_unknown_thing`, the runner raises `ExpectationFailure` with
detail "Unsupported expectation type: expect_unknown_thing"; no
`UnsupportedRuleKind` error exists in the code, so nothing of that kind
is raised. -/
theorem unsupported_kind_counterexample :
    validate emailDf [.unknown "expect_unknown_thing"] =
      .error (.expectationFailure
        "Unsupported expectation type: expect_unknown_thing")
  ∧ isUnsupportedRuleKindError
      (validate emailDf [.unknown "expect_unknown_thing"]) = false :=
  ⟨rfl, rfl⟩

/-- C5 amended: a suite whose last rule has an unrecognized kind raises
`ExpectationFailure` naming the kind in its detail, even when every
prior rule passes — the rule is reached, never silently skipped. -/
theorem unsupported_kind_reached_last (df : DataFrame) (pre : List Rule)
    (k : String)
    (hpre : ∀ p ∈ pre, isPass (validateRule df p) = true) :
    validate df (pre ++ [.unknown k]) =
      .error (.expectationFailure ("Unsupported expectation type: " ++ k)) :=
  validate_first_error df pre (.unknown k) [] _ hpre rfl

/-- Witness for the amended C5: the unsupported kind is last after a
passing rule and is still reached. -/
theorem unsupported_kind_reached_last_witness :
    validate wDf [.notNull "a", .unknown "expect_unknown_thing"] =
      .error (.expectationFailure
        "Unsupported expectation type: expect_unknown_thing") := by
  have h := unsupported_kind_reached_last wDf [.notNull "a"]
    "expect_unknown_thing" (by decide)
  exact h

/-- C4 counterexample: the value "ab" does not fully match the pattern
`a` — the pattern matches only its proper prefix — yet the rule passes,
because pandas `str.match` anchors at the start only. -/
theorem matches_regex_fullmatch_counterexample :
    validateRule codeDf (.matchesRegex "code" "a" (.chr 'a')) =
      .ok "Column code regex a validated"
  ∧ fullmatch (.chr 'a') (Value.asString (.str "ab")).toList = false :=
  ⟨rfl, rfl⟩

/-- C4 amended: a `matches_regex(column, pattern)` rule passes if and
only if every value in the column, coerced to text, matches the pattern
at its start (Python `re.match` prefix semantics — a value of which the
pattern matches only a proper prefix still passes); otherwise validate
raises `ExpectationFailure` naming the column. -/
theorem matches_regex_prefix_semantics (df : DataFrame)
    (col pattern : String) (rgx : Regex) (vs : List Value)
    (hcol : df.getCol? col = some vs) :
    (validateRule df (.matchesRegex col pattern rgx) =
        .ok ("Column " ++ col ++ " regex " ++ pattern ++ " validated")
      ↔ ∀ v ∈ vs, prefixMatch rgx v.asString.toList = true)
  ∧ ((∃ v ∈ vs, prefixMatch rgx v.asString.toList = false) →
      validateRule df (.matchesRegex col pattern rgx) =
        .error (.expectationFailure
          ("Regex validation failed for " ++ col))) := by
  have hok : ∀ _hb : vs.all (fun v => prefixMatch rgx v.asString.toList) = true,
      validateRule df (.matchesRegex col pattern rgx) =
        .ok ("Column " ++ col ++ " regex " ++ pattern ++ " validated") := by
    intro hb
    simp only [validateRule, hcol]
    rw [if_pos hb]
  have herr : ∀ _hb : vs.all (fun v => prefixMatch rgx v.asString.toList) = false,
      validateRule df (.matchesRegex col pattern rgx) =
        .error (.expectationFailure ("Regex validation failed for " ++ col)) := by
    intro hb
    simp only [validateRule, hcol]
    rw [if_neg (by rw [hb]; exact Bool.false_ne_true)]
  cases hb : vs.all (fun v => prefixMatch rgx v.asString.toList) with
  | true =>
      have hall : ∀ v ∈ vs, prefixMatch rgx v.asString.toList = true := by
        simpa using List.all_eq_true.mp hb
      refine ⟨iff_of_true (hok hb) hall, ?_⟩
      rintro ⟨v, hv, hf⟩
      rw [hall v hv] at hf; cases hf
  | false =>
      have hnot : ¬ ∀ v ∈ vs, prefixMatch rgx v.asString.toList = true := by
        intro hall
        rw [List.all_eq_true.mpr fun v hv => hall v hv] at hb; cases hb
      refine ⟨iff_of_false ?_ hnot, fun _ => herr hb⟩
      intro heq
      rw [herr hb] at heq; cases heq

/-- Witness for the amended C4, on the spec's regex scenario: the suite
rule `matches_regex(email, ^\S+@\S+$)` against the record
`email="not-an-email"` raises `ExpectationFailure` naming the `email`
column. -/
theorem matches_regex_prefix_semantics_witness :
    validateRule emailDf (.matchesRegex "email" "^\\S+@\\S+$" emailRgx) =
      .error (.expectationFailure "Regex validation failed for email") := by
  have h := (matches_regex_prefix_semantics emailDf "email" "^\\S+@\\S+$"
      emailRgx [.str "not-an-email"] rfl).2 (by decide)
  exact h

/-- On a numeric cell, the pandas elementwise comparison agrees with the
comparison of the numeric content. -/
theorem vlt_eq_toRat (v : Value) (m : ℚ) (h : v.isNumeric = true) :
    v.vlt m = decide (v.toRat < m) := by
  cases v <;> simp_all [Value.vlt, Value.toRat, Value.isNumeric]

/-- C8: a bounded-range rule with no `min_value` is a no-op pass that
still contributes its pass message, and with a bound it passes exactly
when every (numeric) value of the column is ≥ the bound. -/
theorem min_value_semantics (df : DataFrame) (col : String)
    (mx : Option ℚ) (vs : List Value) (hcol : df.getCol? col = some vs) :
    validateRule df (.between col none mx) =
      .ok ("Column " ++ col ++ " minimum " ++ optBoundStr none ++ " validated")
  ∧ ∀ m : ℚ, (∀ v ∈ vs, v.isNumeric = true) →
      (isPass (validateRule df (.between col (some m) mx)) = true ↔
        ∀ v ∈ vs, m ≤ v.toRat) := by
  constructor
  · simp only [validateRule, hcol]
  · intro m hnum
    have key : (vs.any (fun v => v.vlt m) = false) ↔ ∀ v ∈ vs, m ≤ v.toRat := by
      rw [← Bool.not_eq_true, List.any_eq_true]
      constructor
      · intro hno v hv
        by_contra hlt
        exact hno ⟨v, hv, by
          rw [vlt_eq_toRat v m (hnum v hv)]
          exact decide_eq_true (lt_of_not_le hlt)⟩
      · rintro hall ⟨v, hv, hvlt⟩
        rw [vlt_eq_toRat v m (hnum v hv)] at hvlt
        exact absurd (hall v hv) (not_le.mpr (of_decide_eq_true hvlt))
    have hform : isPass (validateRule df (.between col (some m) mx)) =
        !(vs.any (fun v => v.vlt m)) := by
      cases hb : vs.any (fun v => v.vlt m) with
      | true =>
          simp only [validateRule, hcol]
          rw [if_pos hb]
          rfl
      | false =>
          simp only [validateRule, hcol]
          rw [if_neg (by rw [hb]; exact Bool.false_ne_true)]
          rfl
    rw [hform, Bool.not_eq_true']
    exact key

/-- Witness for C8 on `wDf` (single value 5): the unset bound is a no-op
pass with its message, and the bound 3 passes since 5 ≥ 3. -/
theorem min_value_semantics_witness :
    validateRule wDf (.between "a" none (some 7)) =
      .ok "Column a minimum None validated"
  ∧ isPass (validateRule wDf (.between "a" (some 3) (some 7))) = true := by
  have h := min_value_semantics wDf "a" (some 7) [.int 5] rfl
  exact ⟨h.1, (h.2 3 (by decide)).mpr (by decide)⟩

/-- C10: the bounded-range rule reads only `min_value`: its outcome is
identical for any two `max_value` arguments, and it raises exactly when
`min_value` is present and some value of the column compares below it —
so values exceeding a supplied `max_value` still pass. -/
theorem max_value_ignored (df : DataFrame) (col : String)
    (mn mx mx' : Option ℚ) (vs : List Value)
    (hcol : df.getCol? col = some vs) :
    validateRule df (.between col mn mx) = validateRule df (.between col mn mx')
  ∧ (isPass (validateRule df (.between col mn mx)) = false ↔
      ∃ m, mn = some m ∧ ∃ v ∈ vs, v.vlt m = true) := by
  constructor
  · rfl
  · cases mn with
    | none =>
        have hO : validateRule df (.between col none mx) =
            .ok ("Column " ++ col ++ " minimum " ++ optBoundStr none ++
              " validated") := by
          simp only [validateRule, hcol]
        rw [hO]
        refine iff_of_false (by simp [isPass]) ?_
        rintro ⟨m', hm', -⟩
        cases hm'
    | some m =>
        cases hb : vs.any (fun v => v.vlt m) with
        | true =>
            have hE : validateRule df (.between col (some m) mx) =
                .error (.expectationFailure
                  ("Values in " ++ col ++ " below " ++ toString m)) := by
              simp only [validateRule, hcol]
              rw [if_pos hb]
            rw [hE]
            exact iff_of_true rfl
              ⟨m, rfl, by simpa using List.any_eq_true.mp hb⟩
        | false =>
            have hO : validateRule df (.between col (some m) mx) =
                .ok ("Column " ++ col ++ " minimum " ++
                  optBoundStr (some m) ++ " validated") := by
              simp only [validateRule, hcol]
              rw [if_neg (by rw [hb]; exact Bool.false_ne_true)]
            rw [hO]
            refine iff_of_false (by simp [isPass]) ?_
            rintro ⟨m', hm', v, hv, hvlt⟩
            cases hm'
            rw [List.any_eq_false] at hb
            exact hb v hv hvlt

/-- Witness for C10 on `wDf` (single value 5): two different
`max_value`s give the same outcome even though 5 exceeds the max 2, and
a rule raises when `min_value` 99 is violated. -/
theorem max_value_ignored_witness :
    validateRule wDf (.between "a" (some 1) (some 2)) =
      validateRule wDf (.between "a" (some 1) (some 999))
  ∧ isPass (validateRule wDf (.between "a" (some 99) (some 2))) = false := by
  refine ⟨(max_value_ignored wDf "a" (some 1) (some 2) (some 999)
      [.int 5] rfl).1, ?_⟩
  exact (max_value_ignored wDf "a" (some 99) (some 2) (some 7)
      [.int 5] rfl).2.mpr ⟨99, rfl, by decide⟩

/-- Membership in a grouped index is membership among the source keys. -/
theorem mem_groupKeys (ks : List SDKey) (k : SDKey) :
    k ∈ groupKeys ks ↔ k ∈ ks := by
  unfold groupKeys
  rw [List.mem_insertionSort, List.mem_dedup]

/-- A grouped index holds no duplicate keys. -/
theorem nodup_groupKeys (ks : List SDKey) : (groupKeys ks).Nodup :=
  (List.perm_insertionSort keyLE ks.dedup).nodup_iff.mpr (List.nodup_dedup ks)

/-- A grouped index is sorted ascending. -/
theorem sorted_groupKeys (ks : List SDKey) :
    List.Sorted keyLE (groupKeys ks) :=
  List.sorted_insertionSort keyLE ks.dedup

/-- Lookup in an association list tabulating a function over keys. -/
theorem alookup_map_self {α : Type} (f : SDKey → α) (ks : List SDKey)
    (k : SDKey) :
    alookup (ks.map fun j => (j, f j)) k =
      if k ∈ ks then some (f k) else none := by
  induction ks with
  | nil => rfl
  | cons a as ih =>
      simp only [List.map_cons, alookup]
      by_cases hk : k = a
      · subst hk; simp
      · rw [if_neg hk, ih]
        by_cases hmem : k ∈ as
        · rw [if_pos hmem, if_pos (List.mem_cons_of_mem a hmem)]
        · rw [if_neg hmem, if_neg (by simp [List.mem_cons, hk, hmem])]

/-- First components of a tabulated association list. -/
theorem map_fst_map_pair {α : Type} (f : SDKey → α) (ks : List SDKey) :
    ((ks.map fun j => (j, f j)).map Prod.fst) = ks := by
  rw [List.map_map]
  exact List.map_id ks

/-- The index keys of the grouped orders frame. -/
theorem groupOrders_keys (rows : List OrderRow) :
    (groupOrders rows).map Prod.fst = groupKeys (rows.map OrderRow.key) :=
  map_fst_map_pair _ _

/-- The index keys of the grouped leads frame. -/
theorem groupLeads_keys (rows : List LeadRow) :
    (groupLeads rows).map Prod.fst = groupKeys (rows.map LeadRow.key) :=
  map_fst_map_pair _ _

/-- The index keys of the grouped web frame. -/
theorem groupWeb_keys (rows : List WebRow) :
    (groupWeb rows).map Prod.fst = groupKeys (rows.map WebRow.key) :=
  map_fst_map_pair _ _

/-- Join-side lookup into the grouped orders frame. -/
theorem alookup_groupOrders (rows : List OrderRow) (k : SDKey) :
    alookup (groupOrders rows) k =
      if k ∈ rows.map OrderRow.key then
        some (revenueAt rows k, orderCountAt rows k)
      else none := by
  unfold groupOrders
  rw [alookup_map_self]
  by_cases h : k ∈ rows.map OrderRow.key
  · rw [if_pos ((mem_groupKeys _ _).mpr h), if_pos h]
  · rw [if_neg (fun hc => h ((mem_groupKeys _ _).mp hc)), if_neg h]

/-- Join-side lookup into the grouped leads frame. -/
theorem alookup_groupLeads (rows : List LeadRow) (k : SDKey) :
    alookup (groupLeads rows) k =
      if k ∈ rows.map LeadRow.key then some (convertedLeadsAt rows k)
      else none := by
  unfold groupLeads
  rw [alookup_map_self]
  by_cases h : k ∈ rows.map LeadRow.key
  · rw [if_pos ((mem_groupKeys _ _).mpr h), if_pos h]
  · rw [if_neg (fun hc => h ((mem_groupKeys _ _).mp hc)), if_neg h]

/-- Join-side lookup into the grouped web frame. -/
theorem alookup_groupWeb (rows : List WebRow) (k : SDKey) :
    alookup (groupWeb rows) k =
      if k ∈ rows.map WebRow.key then some (sessionsAt rows k)
      else none := by
  unfold groupWeb
  rw [alookup_map_self]
  by_cases h : k ∈ rows.map WebRow.key
  · rw [if_pos ((mem_groupKeys _ _).mpr h), if_pos h]
  · rw [if_neg (fun hc => h ((mem_groupKeys _ _).mp hc)), if_neg h]

/-- The joined index holds exactly the keys observed in some contributing
staging table. -/
theorem mem_factKeys (st : Staging) (k : SDKey) :
    k ∈ factKeys st ↔
      hasOrderKey st k ∨ hasLeadKey st k ∨ hasWebKey st k := by
  unfold factKeys
  rw [mem_groupKeys, groupOrders_keys, groupLeads_keys, groupWeb_keys]
  simp [mem_groupKeys, List.mem_append, List.mem_map,
    hasOrderKey, hasLeadKey, hasWebKey]

/-- The keys of the fact rows are the joined index. -/
theorem map_key_build_fact (st : Staging) :
    (build_fact st).map FactRow.key = factKeys st := by
  unfold build_fact
  rw [List.map_map]
  have hc : (FactRow.key ∘ factRowAt st) = id := by
    funext k
    simp [factRowAt, FactRow.key]
  rw [hc, List.map_id]

/-- Closed form of the joined-and-zero-filled row at a key. -/
theorem factRowAt_eq (st : Staging) (k : SDKey) :
    factRowAt st k =
      { store_id := k.1, dt := k.2
        revenue :=
          if hasOrderKey st k then revenueAt st.stg_erp_orders k else 0
        order_count :=
          if hasOrderKey st k then orderCountAt st.stg_erp_orders k else 0
        converted_leads :=
          if hasLeadKey st k then convertedLeadsAt st.stg_crm_leads k else 0
        sessions :=
          if hasWebKey st k then sessionsAt st.stg_web_events k else 0 } := by
  have ho : (k ∈ st.stg_erp_orders.map OrderRow.key) ↔ hasOrderKey st k := by
    simp [hasOrderKey, List.mem_map]
  have hl : (k ∈ st.stg_crm_leads.map LeadRow.key) ↔ hasLeadKey st k := by
    simp [hasLeadKey, List.mem_map]
  have hw : (k ∈ st.stg_web_events.map WebRow.key) ↔ hasWebKey st k := by
    simp [hasWebKey, List.mem_map]
  unfold factRowAt
  rw [alookup_groupOrders, alookup_groupLeads, alookup_groupWeb]
  by_cases hO : hasOrderKey st k <;> by_cases hL : hasLeadKey st k <;>
    by_cases hW : hasWebKey st k <;>
      simp [ho, hl, hw, hO, hL, hW]

/-- C2: `build_fact` outer-joins the grouped orders, leads and web
events on (store_id, dt): a key present in any one group appears in the
output; every metric missing for a key after the join is 0; a key
present only in web events yields revenue 0, order_count 0,
converted_leads 0 and sessions equal to the count of its web events. -/
theorem fact_outer_join_zero_fill (st : Staging) (k : SDKey) :
    (k ∈ (build_fact st).map FactRow.key ↔
      hasOrderKey st k ∨ hasLeadKey st k ∨ hasWebKey st k)
  ∧ (∀ row ∈ build_fact st,
        (¬ hasOrderKey st row.key → row.revenue = 0 ∧ row.order_count = 0)
      ∧ (¬ hasLeadKey st row.key → row.converted_leads = 0)
      ∧ (¬ hasWebKey st row.key → row.sessions = 0))
  ∧ (hasWebKey st k → ¬ hasOrderKey st k → ¬ hasLeadKey st k →
      factRowAt st k ∈ build_fact st ∧
      factRowAt st k =
        { store_id := k.1, dt := k.2, revenue := 0, order_count := 0,
          converted_leads := 0,
          sessions := sessionsAt st.stg_web_events k }) := by
  refine ⟨?_, ?_, ?_⟩
  · rw [map_key_build_fact]
    exact mem_factKeys st k
  · intro row hrow
    obtain ⟨j, _hj, rfl⟩ := List.mem_map.mp hrow
    have hkey : (factRowAt st j).key = j := by
      simp [factRowAt, FactRow.key]
    refine ⟨fun h => ?_, fun h => ?_, fun h => ?_⟩ <;>
      rw [hkey] at h <;> rw [factRowAt_eq] <;> simp [h]
  · intro hwk hok hlk
    constructor
    · exact List.mem_map_of_mem _
        ((mem_factKeys st k).mpr (Or.inr (Or.inr hwk)))
    · rw [factRowAt_eq]
      simp [hok, hlk, hwk]

/-- Witness for C2 on `stW`: the key (S3, 11) occurs only in web events
(twice); its fact row has zero revenue, order count, converted leads,
and sessions 2. -/
theorem fact_outer_join_zero_fill_witness :
    (("S3", 11) : SDKey) ∈ (build_fact stW).map FactRow.key
  ∧ factRowAt stW ("S3", 11) ∈ build_fact stW
  ∧ factRowAt stW ("S3", 11) =
      { store_id := "S3", dt := 11, revenue := 0, order_count := 0,
        converted_leads := 0, sessions := 2 } := by
  have h := fact_outer_join_zero_fill stW ("S3", 11)
  refine ⟨h.1.mpr (Or.inr (Or.inr (by decide))), ?_, ?_⟩
  · exact (h.2.2 (by decide) (by decide) (by decide)).1
  · rw [(h.2.2 (by decide) (by decide) (by decide)).2]
    rfl

/-- C3: the fact table has exactly one row per distinct (store_id, dt)
key observed across the contributing staging tables — its key sequence
has no duplicate, covers exactly the observed keys — and its rows are
sorted ascending by (store_id, dt). -/
theorem fact_one_row_per_key_sorted (st : Staging) :
    ((build_fact st).map FactRow.key).Nodup
  ∧ List.Sorted keyLE ((build_fact st).map FactRow.key)
  ∧ ∀ k : SDKey, k ∈ (build_fact st).map FactRow.key ↔
      hasOrderKey st k ∨ hasLeadKey st k ∨ hasWebKey st k := by
  rw [map_key_build_fact]
  exact ⟨nodup_groupKeys _, sorted_groupKeys _, fun k => mem_factKeys st k⟩

/-- C9: the fact table never reads the products staging table — two
staging inputs agreeing on orders, leads and web events yield identical
fact tables whatever their products tables — and a key present only in
products never appears in the output. -/
theorem fact_independent_of_products (st st' : Staging)
    (ho : st.stg_erp_orders = st'.stg_erp_orders)
    (hl : st.stg_crm_leads = st'.stg_crm_leads)
    (hw : st.stg_web_events = st'.stg_web_events) :
    build_fact st = build_fact st'
  ∧ ∀ k : SDKey, k ∈ st.stg_products.map ProductRow.key →
      ¬ hasOrderKey st k → ¬ hasLeadKey st k → ¬ hasWebKey st k →
      k ∉ (build_fact st).map FactRow.key := by
  constructor
  · obtain ⟨o, l, p, w⟩ := st
    obtain ⟨o', l', p', w'⟩ := st'
    cases ho; cases hl; cases hw
    rfl
  · intro k _hp hO hL hW hmem
    rw [map_key_build_fact] at hmem
    rcases (mem_factKeys st k).mp hmem with h | h | h
    exacts [hO h, hL h, hW h]

/-- Witness for C9: adding a products row for the unseen key (S9, 99)
leaves the fact table unchanged and that key absent from it. -/
theorem fact_independent_of_products_witness :
    build_fact stWP = build_fact stW
  ∧ (("S9", 99) : SDKey) ∉ (build_fact stWP).map FactRow.key := by
  have h := fact_independent_of_products stWP stW rfl rfl rfl
  exact ⟨h.1, h.2 ("S9", 99) (by decide) (by decide) (by decide) (by decide)⟩

/-- C6: the fact table's columns, in order, are store_id, dt (the
source's name for the spec's date column), revenue, order_count,
converted_leads, sessions — in the aggregate output frame and in the
written `fct_daily_store_metrics.csv` artifact alike. -/
theorem fact_columns_order (st : Staging) (fact : List FactRow) :
    (factFrame (build_fact st)).cols =
      ["store_id", "dt", "revenue", "order_count", "converted_leads",
        "sessions"]
  ∧ ("fct_daily_store_metrics.csv", factFrame fact) ∈
      write_outputs st fact :=
  ⟨rfl, by simp [write_outputs]⟩

/-- The domain loop stops at the first domain whose validation raises,
propagating that error. -/
theorem validateDomains_first_error (raw : RawFrames) (suites : Suites)
    (pre : List Domain) (d : Domain) (post : List Domain)
    (e : PipelineError)
    (hpre : ∀ p ∈ pre,
      isPass (validate (rawOf raw p) (suiteOf suites p)) = true)
    (hd : validate (rawOf raw d) (suiteOf suites d) = .error e) :
    validateDomains raw suites (pre ++ d :: post) = .error e := by
  induction pre with
  | nil => simp [validateDomains, hd]
  | cons p ps ih =>
      have hp := hpre p (List.mem_cons_self p ps)
      have hps := fun x hx => hpre x (List.mem_cons_of_mem p hx)
      cases hvp : validate (rawOf raw p) (suiteOf suites p) with
      | error e' => rw [hvp] at hp; simp [isPass] at hp
      | ok ms =>
          simp only [List.cons_append, validateDomains, hvp,
            List.append_eq, ih hps]

/-- C7: when validation fails for some domain — the first failing domain
in `DOMAINS` order — the whole run aborts with that error: the pipeline
result is that error, so no staging table, no fact table and no written
artifact is produced (those exist only in a returned value), and the
error propagates unchanged to the caller. -/
theorem run_pipeline_fail_fast (raw : RawFrames) (suites : Suites)
    (pre : List Domain) (d : Domain) (post : List Domain)
    (e : PipelineError)
    (hsplit : domainOrder = pre ++ d :: post)
    (hpre : ∀ p ∈ pre,
      isPass (validate (rawOf raw p) (suiteOf suites p)) = true)
    (hd : validate (rawOf raw d) (suiteOf suites d) = .error e) :
    run_pipeline raw suites = .error e := by
  have h := validateDomains_first_error raw suites pre d post e hpre hd
  unfold run_pipeline
  rw [hsplit, h]
  rfl

/-- Witness for C7: with erp passing and crm failing on an unsupported
rule kind, the whole run returns exactly that error. -/
theorem run_pipeline_fail_fast_witness :
    run_pipeline rawW suitesW =
      .error (.expectationFailure "Unsupported expectation type: boom") :=
  run_pipeline_fail_fast rawW suitesW [.erp] .crm [.web, .product]
    (.expectationFailure "Unsupported expectation type: boom")
    rfl (by decide) (by rfl)

end LocalRunner
